import Mathlib

/-!
Shallow embedding of `crates/typst-cli/src/query.rs` from the repository.

The file `query.rs` implements the `typst query` subcommand of this fork:
it compiles the document, captures the first styled value recorded by the
compile tracer, evaluates the selector expression, queries the document's
introspector, lays out the first matched node in isolation and writes the
first page of the result as an SVG file.

External capabilities (the compiler, the evaluator, the introspector's
query routine, the layout algorithm, the SVG encoder and the filesystem)
are supplied as components of a `SystemWorld` environment record; the
control flow, error handling and data plumbing of `query.rs` itself are
translated function by function.  Effects (selector evaluations, index
queries, layout invocations, renders, file writes, surfaced diagnostics,
the process-failed flag) are logged in a `RunResult` record.
-/

/-- A diagnostic produced by evaluation or compilation (`SourceDiagnostic`). -/
structure SourceError where
  message : String
deriving DecidableEq

/-- An opaque style set (`typst::foundations::Styles`). -/
structure Styles where
  id : Nat
deriving DecidableEq

/-- An opaque locatable selector value (`typst::foundations::Selector`). -/
structure Selector where
  id : Nat
deriving DecidableEq

/-- An opaque content node (`typst::foundations::Content`). -/
structure Content where
  id : Nat
deriving DecidableEq

/-- An opaque laid-out frame (`typst::layout::Frame`). -/
structure Frame where
  id : Nat
deriving DecidableEq

/-- A finished page of a document, holding its frame (`typst::model::Page`). -/
structure Page where
  frame : Frame
deriving DecidableEq

/-- Modelled from the spec: the document's cross-reference index
(`typst::introspection::Introspector`, its implementation is outside
`query.rs`).  Its query operation returns, for a selector, the matching
content nodes in document order, as maintained by the index. -/
structure Introspector where
  queryFn : Selector → List Content

/-- A finished document: its pages and its cross-reference index
(`typst::model::Document`). -/
structure Document where
  pages : List Page
  introspector : Introspector

/-- The result of `cast::<LocatableSelector>()` on the evaluated value:
`LocatableSelector` wraps the selector (field `.0`). -/
structure LocatableSelector where
  sel : Selector
deriving DecidableEq

/-- The value produced by `eval_string`: either one castable to
`LocatableSelector`, or some other value whose cast fails with the given
cast-error message. -/
inductive EvalValue
| selectorVal (s : Selector)
| nonSelector (castError : String)
deriving DecidableEq

/-- `value.cast::<LocatableSelector>()` from `foundations`. -/
def EvalValue.castLocatableSelector : EvalValue → Except String LocatableSelector
| .selectorVal s => Except.ok ⟨s⟩
| .nonSelector e => Except.error e

/-- Modelled from the spec: the `comemo` constraint accumulated by a
tracked introspector view (`<Introspector as Validate>::Constraint`); it
records validation metadata for the queries made through the view. -/
structure Constraint where
  recorded : List Selector

/-- `Constraint::new()`: a freshly created, empty constraint. -/
def Constraint.new : Constraint := ⟨[]⟩

/-- Modelled from the spec: the constrained view of the index obtained
from `introspector.track_with(&constraint)`. -/
structure TrackedIntrospector where
  inner : Introspector
  constraint : Constraint

/-- `introspector.track_with(&constraint)`. -/
def Introspector.track_with (i : Introspector) (c : Constraint) : TrackedIntrospector :=
  ⟨i, c⟩

/-- Modelled from the spec: a query issued through the constrained view
answers exactly as the wrapped index does, and additionally records the
query in the accumulated validation metadata. -/
def TrackedIntrospector.queryTracked (t : TrackedIntrospector) (s : Selector) :
    List Content × TrackedIntrospector :=
  (t.inner.queryFn s, ⟨t.inner, ⟨t.constraint.recorded ++ [s]⟩⟩)

/-- The recursion guard (`typst::engine::Route`); `Route::default()` is the
empty route. -/
structure Route where
  depth : Nat
deriving DecidableEq

/-- `Route::default()`. -/
def Route.default : Route := ⟨0⟩

/-- The tracer (`typst::eval::Tracer`); it records traced values with their
optional styles. -/
structure Tracer where
  values : List (Nat × Option Styles)
deriving DecidableEq

/-- `Tracer::new()`: a fresh, empty tracer. -/
def Tracer.new : Tracer := ⟨[]⟩

/-- The location allocator (`typst::introspection::Locator`);
`Locator::new()` is fresh. -/
structure Locator where
  used : Nat
deriving DecidableEq

/-- `Locator::new()`. -/
def Locator.new : Locator := ⟨0⟩

/-- The tracked handle to the world provider obtained from `world.track()`. -/
structure TrackedWorld where
  worldId : Nat
deriving DecidableEq

/-- The layout context (`typst::engine::Engine`) assembled in `query` and
passed to `layout_root`. -/
structure Engine where
  world : TrackedWorld
  route : Route
  tracer : Tracer
  locator : Locator
  introspector : TrackedIntrospector

/-- The style chain (`StyleChain::new(&styles)`) rooted in one style set. -/
structure StyleChain where
  root : Styles
deriving DecidableEq

/-- `StyleChain::new(&styles)`. -/
def StyleChain.new (s : Styles) : StyleChain := ⟨s⟩

/-- The environment of one invocation: the `SystemWorld` together with the
behaviour of the external capabilities it gives access to.
`sourceResult` is the outcome of `world.source(world.main())`;
`compileResult` and `compileTracerValues` are the outcome of
`typst::compile(&world, &mut tracer)` and the values the compile recorded
in the tracer; `evalString` is `typst::eval::eval_string` on the world;
`layoutRoot` is the node's `layout_root` layout algorithm; `svg` is
`typst_svg::svg`; `fsWrite` is `std::fs::write`. -/
structure SystemWorld where
  worldId : Nat
  sourceResult : Except String Unit
  compileResult : Except (List SourceError) Document
  compileTracerValues : List (Nat × Option Styles)
  evalString : String → Except (List SourceError) EvalValue
  layoutRoot : Engine → Content → StyleChain → Except (List SourceError) Document
  svg : Frame → String
  fsWrite : String → String → Except String Unit

/-- `world.track()`. -/
def SystemWorld.track (w : SystemWorld) : TrackedWorld := ⟨w.worldId⟩

/-- The arguments of the query subcommand (`crate::args::QueryCommand`);
only `selector` is consulted on the code path `query` actually executes
(the `format` call that would consult `one` and `field` is commented out). -/
structure QueryCommand where
  selector : String
  one : Bool
  field : Option String
deriving DecidableEq

/-- How one invocation of `query` ended: returning `Ok(())`, returning a
typed `Err` of the `StrResult`, or panicking (an `unwrap` failure). -/
inductive Outcome
| success
| typedError (msg : String)
| panicked (msg : String)
deriving DecidableEq

/-- The observable record of one invocation of `query`: its outcome, the
process-failed flag, and a log of each effect it performed. -/
structure RunResult where
  outcome : Outcome
  failedSet : Bool
  selectorEvals : List String
  indexQueries : List Selector
  layoutCalls : List (Engine × Content × StyleChain)
  renders : List Frame
  writeAttempts : List (String × String)
  filesWritten : List (String × String)
  diagnosticsSurfaced : List SourceError

/-- A run that performed no effects and ended with the given outcome. -/
def RunResult.pure (o : Outcome) : RunResult :=
  ⟨o, false, [], [], [], [], [], [], []⟩

/-- The message of a panic caused by `Option::unwrap` on `None`. -/
def unwrapNoneMsg : String := "called Option::unwrap on a None value"

/-- The message of a panic caused by `Result::unwrap` on `Err`. -/
def unwrapErrMsg : String := "called Result::unwrap on an Err value"

/-- One step of the error-message aggregation loop in `retrieve`'s
`map_err` closure: append the separator (`": "` for the first error,
`", "` afterwards) and the error's message. -/
def evalErrorStep (message : String) (ie : Nat × SourceError) : String :=
  message ++ (if ie.1 == 0 then ": " else ", ") ++ ie.2.message

/-- The error-message aggregation in `retrieve`'s `map_err` closure:
starts from `"failed to evaluate selector"` and appends every error's
message, the first after `": "`, the rest after `", "`. -/
def evalErrorMessage (errors : List SourceError) : String :=
  errors.enum.foldl evalErrorStep "failed to evaluate selector"

/-- `retrieve` from `query.rs`, with an effect log: evaluates the selector
expression, aggregates evaluation errors into one message, casts the value
to a `LocatableSelector`, and queries the document's introspector.  Returns
the `StrResult` together with the selector strings evaluated and the
selectors passed to the index query. -/
def retrieveCore (world : SystemWorld) (command : QueryCommand) (document : Document) :
    Except String (List Content) × List String × List Selector :=
  match world.evalString command.selector with
  | Except.error errors => (Except.error (evalErrorMessage errors), [command.selector], [])
  | Except.ok value =>
    match value.castLocatableSelector with
    | Except.error e => (Except.error e, [command.selector], [])
    | Except.ok selector =>
      (Except.ok (document.introspector.queryFn selector.sel),
       [command.selector], [selector.sel])

/-- `retrieve` from `query.rs`: the `StrResult<Vec<Content>>` it returns. -/
def retrieve (world : SystemWorld) (command : QueryCommand) (document : Document) :
    Except String (List Content) :=
  (retrieveCore world command document).1

/-- `query` from `query.rs`.  `worldInit` is the outcome of
`SystemWorld::new(&command.common)`.  The body mirrors the source: read the
main source, compile with a tracer, extract the first traced styles by a
double `unwrap` (before the compile result is inspected), then on a
successful compile retrieve the matches, lay out the first match with a
freshly assembled engine and the captured style chain, and write the SVG of
the first page; on a failed compile set the process-failed flag (the
diagnostics printing is commented out in the source). -/
def query (worldInit : Except String SystemWorld) (command : QueryCommand) : RunResult :=
  match worldInit with
  | Except.error err => RunResult.pure (Outcome.typedError err)
  | Except.ok world =>
    match world.sourceResult with
    | Except.error err => RunResult.pure (Outcome.typedError err)
    | Except.ok _ =>
      let result := world.compileResult
      match world.compileTracerValues.head? with
      | none => RunResult.pure (Outcome.panicked unwrapNoneMsg)
      | some (_, none) => RunResult.pure (Outcome.panicked unwrapNoneMsg)
      | some (_, some styles) =>
        match result with
        | Except.error _errors =>
          { RunResult.pure Outcome.success with failedSet := true }
        | Except.ok document =>
          match retrieveCore world command document with
          | (Except.error err, evals, queries) =>
            { RunResult.pure (Outcome.typedError err) with
              selectorEvals := evals, indexQueries := queries }
          | (Except.ok data, evals, queries) =>
            match data.head? with
            | none =>
              { RunResult.pure (Outcome.panicked unwrapNoneMsg) with
                selectorEvals := evals, indexQueries := queries }
            | some firstMatch =>
              let constraint := Constraint.new
              let engine : Engine :=
                { world := world.track
                  route := Route.default
                  tracer := Tracer.new
                  locator := Locator.new
                  introspector := document.introspector.track_with constraint }
              let chain := StyleChain.new styles
              match world.layoutRoot engine firstMatch chain with
              | Except.error _ =>
                { RunResult.pure (Outcome.panicked unwrapErrMsg) with
                  selectorEvals := evals, indexQueries := queries,
                  layoutCalls := [(engine, firstMatch, chain)] }
              | Except.ok newDoc =>
                match newDoc.pages.head? with
                | none =>
                  { RunResult.pure (Outcome.panicked unwrapNoneMsg) with
                    selectorEvals := evals, indexQueries := queries,
                    layoutCalls := [(engine, firstMatch, chain)] }
                | some page =>
                  let svgData := world.svg page.frame
                  let outputPath := "./output.svg"
                  match world.fsWrite outputPath svgData with
                  | Except.error e =>
                    { RunResult.pure (Outcome.panicked e) with
                      selectorEvals := evals, indexQueries := queries,
                      layoutCalls := [(engine, firstMatch, chain)],
                      renders := [page.frame],
                      writeAttempts := [(outputPath, svgData)] }
                  | Except.ok _ =>
                    { RunResult.pure Outcome.success with
                      selectorEvals := evals, indexQueries := queries,
                      layoutCalls := [(engine, firstMatch, chain)],
                      renders := [page.frame],
                      writeAttempts := [(outputPath, svgData)],
                      filesWritten := [(outputPath, svgData)] }

/-! ## Concrete fixtures

Small concrete environments used to exercise `query` on particular
scenarios: a run where everything succeeds, and variants in which exactly
one stage misbehaves. -/

/-- A concrete style set. -/
def sampleStyles : Styles := ⟨7⟩

/-- A concrete selector. -/
def sampleSelector : Selector := ⟨3⟩

/-- A concrete content node. -/
def sampleContent : Content := ⟨11⟩

/-- A concrete frame. -/
def sampleFrame : Frame := ⟨5⟩

/-- A concrete page. -/
def samplePage : Page := ⟨sampleFrame⟩

/-- A concrete query command. -/
def sampleCmd : QueryCommand := ⟨"heading", false, none⟩

/-- A compiled document whose index matches `[sampleContent]` for every
selector. -/
def sampleDoc : Document := ⟨[samplePage], ⟨fun _ => [sampleContent]⟩⟩

/-- The document produced by the isolated re-layout in the successful
scenario: one page. -/
def sampleNewDoc : Document := ⟨[samplePage], ⟨fun _ => []⟩⟩

/-- A re-layout result with zero pages. -/
def emptyPagesDoc : Document := ⟨[], ⟨fun _ => []⟩⟩

/-- A compiled document whose index matches nothing. -/
def emptyMatchDoc : Document := ⟨[samplePage], ⟨fun _ => []⟩⟩

/-- Two concrete evaluation errors. -/
def sampleErrors : List SourceError := [⟨"unclosed delimiter"⟩, ⟨"expected expression"⟩]

/-- The fully successful environment. -/
def sampleWorld : SystemWorld :=
  { worldId := 0
    sourceResult := Except.ok ()
    compileResult := Except.ok sampleDoc
    compileTracerValues := [(0, some sampleStyles)]
    evalString := fun _ => Except.ok (EvalValue.selectorVal sampleSelector)
    layoutRoot := fun _ _ _ => Except.ok sampleNewDoc
    svg := fun _ => "svg-data"
    fsWrite := fun _ _ => Except.ok () }

/-- The engine `query` assembles for `sampleDoc`. -/
def sampleEngine : Engine :=
  { world := ⟨0⟩
    route := Route.default
    tracer := Tracer.new
    locator := Locator.new
    introspector := sampleDoc.introspector.track_with Constraint.new }

/-- Like `sampleWorld`, but selector evaluation fails with two errors. -/
def worldEvalFails : SystemWorld :=
  { sampleWorld with evalString := fun _ => Except.error sampleErrors }

/-- Like `sampleWorld`, but the evaluated value is not castable to a
`LocatableSelector`. -/
def worldCastFails : SystemWorld :=
  { sampleWorld with
    evalString := fun _ => Except.ok (EvalValue.nonSelector "expected selector, found integer") }

/-- Like `sampleWorld`, but the compile fails and the tracer recorded no
values. -/
def worldNoTracer : SystemWorld :=
  { sampleWorld with
    compileTracerValues := []
    compileResult := Except.error [⟨"compile failed"⟩] }

/-- Like `sampleWorld`, but the compile fails while the tracer did record a
styled value. -/
def worldCompileFails : SystemWorld :=
  { sampleWorld with compileResult := Except.error [⟨"compile failed"⟩] }

/-- Like `sampleWorld`, but the compiled document's index matches nothing. -/
def worldZeroMatches : SystemWorld :=
  { sampleWorld with compileResult := Except.ok emptyMatchDoc }

/-- The engine `query` assembles for `emptyMatchDoc`. -/
def emptyMatchEngine : Engine :=
  { world := ⟨0⟩
    route := Route.default
    tracer := Tracer.new
    locator := Locator.new
    introspector := emptyMatchDoc.introspector.track_with Constraint.new }

/-- Like `sampleWorld`, but the isolated re-layout yields zero pages. -/
def worldEmptyPages : SystemWorld :=
  { sampleWorld with layoutRoot := fun _ _ _ => Except.ok emptyPagesDoc }

/-- Like `sampleWorld`, but the isolated re-layout fails. -/
def worldLayoutFails : SystemWorld :=
  { sampleWorld with
    layoutRoot := fun _ _ _ => Except.error [⟨"cannot lay out in isolation"⟩] }

/-- Like `sampleWorld`, but writing the output file fails. -/
def worldWriteFails : SystemWorld :=
  { sampleWorld with fsWrite := fun _ _ => Except.error "permission denied" }

/-! ## Helper lemmas about the error-message aggregation -/

theorem evalErrorStep_data (init : String) (ie : Nat × SourceError) :
    (evalErrorStep init ie).data =
      init.data ++ ((if ie.1 == 0 then ": " else ", ").data ++ ie.2.message.data) := by
  simp [evalErrorStep, List.append_assoc]

theorem foldl_evalErrorStep_pref (l : List SourceError) :
    ∀ (n : Nat) (init : String),
      init.data <+: ((l.enumFrom n).foldl evalErrorStep init).data := by
  induction l with
  | nil => intro n init; simp
  | cons a t ih =>
    intro n init
    rw [List.enumFrom_cons, List.foldl_cons]
    refine List.IsPrefix.trans ?_ (ih (n + 1) (evalErrorStep init (n, a)))
    exact ⟨(if (n, a).1 == 0 then ": " else ", ").data ++ (n, a).2.message.data,
      (evalErrorStep_data init (n, a)).symm⟩

theorem foldl_evalErrorStep_mem (l : List SourceError) (e : SourceError) (he : e ∈ l) :
    ∀ (n : Nat) (init : String),
      e.message.data <:+: ((l.enumFrom n).foldl evalErrorStep init).data := by
  induction l with
  | nil => cases he
  | cons a t ih =>
    intro n init
    rw [List.enumFrom_cons, List.foldl_cons]
    rcases List.mem_cons.mp he with rfl | hmem
    · obtain ⟨post, hpost⟩ := foldl_evalErrorStep_pref t (n + 1) (evalErrorStep init (n, e))
      refine ⟨init.data ++ (if (n, e).1 == 0 then ": " else ", ").data, post, ?_⟩
      rw [← hpost, evalErrorStep_data]
      simp [List.append_assoc]
    · exact ih hmem (n + 1) (evalErrorStep init (n, a))

/-! ## Claim theorems -/

/-- C7: every query issued through the constrained cross-reference view
(the index wrapped via `track_with` with a fresh constraint) returns
exactly the answer the original, unwrapped index gives at the same
document state; the wrapper leaves the wrapped index untouched and only
accumulates validation metadata. -/
theorem tracked_view_consistent_with_index :
    ∀ (i : Introspector) (c : Constraint) (s : Selector),
      ((i.track_with c).queryTracked s).1 = i.queryFn s ∧
      ((i.track_with c).queryTracked s).2.inner = i := by
  intro i c s
  exact ⟨rfl, rfl⟩

/-- C4: when the selector expression evaluates with one or more errors,
`retrieve` returns a single error message that begins with
`"failed to evaluate selector"` (distinguishing it from downstream query
or layout errors) and contains every constituent evaluation error's
message, not only the first. -/
theorem retrieve_aggregates_eval_errors (world : SystemWorld) (cmd : QueryCommand)
    (document : Document) (errors : List SourceError)
    (heval : world.evalString cmd.selector = Except.error errors) :
    retrieve world cmd document = Except.error (evalErrorMessage errors) ∧
    ("failed to evaluate selector").data <+: (evalErrorMessage errors).data ∧
    ∀ e ∈ errors, e.message.data <:+: (evalErrorMessage errors).data := by
  refine ⟨?_, ?_, ?_⟩
  · simp [retrieve, retrieveCore, heval]
  · exact foldl_evalErrorStep_pref errors 0 "failed to evaluate selector"
  · intro e he
    exact foldl_evalErrorStep_mem errors e he 0 "failed to evaluate selector"

/-- Witness for C4 at a concrete environment with two evaluation errors. -/
theorem retrieve_aggregates_eval_errors_witness :
    worldEvalFails.evalString sampleCmd.selector = Except.error sampleErrors ∧
    (retrieve worldEvalFails sampleCmd sampleDoc = Except.error (evalErrorMessage sampleErrors) ∧
     ("failed to evaluate selector").data <+: (evalErrorMessage sampleErrors).data ∧
     ∀ e ∈ sampleErrors, e.message.data <:+: (evalErrorMessage sampleErrors).data) :=
  ⟨rfl, retrieve_aggregates_eval_errors worldEvalFails sampleCmd sampleDoc sampleErrors rfl⟩

/-- C6: for a selector expression that evaluates and casts successfully
and matches at least one node, `retrieve` returns exactly the ordered
sequence produced by the document's cross-reference index query, and any
two calls with the same document and selector agree on the sequence and
its order. -/
theorem retrieve_returns_index_query_order (world : SystemWorld) (cmd : QueryCommand)
    (document : Document) (v : EvalValue) (sel : LocatableSelector)
    (heval : world.evalString cmd.selector = Except.ok v)
    (hcast : v.castLocatableSelector = Except.ok sel)
    (_hne : document.introspector.queryFn sel.sel ≠ []) :
    retrieve world cmd document = Except.ok (document.introspector.queryFn sel.sel) ∧
    ∀ l₁ l₂, retrieve world cmd document = Except.ok l₁ →
      retrieve world cmd document = Except.ok l₂ → l₁ = l₂ := by
  constructor
  · simp [retrieve, retrieveCore, heval, hcast]
  · intro l₁ l₂ h₁ h₂
    rw [h₁] at h₂
    simpa using h₂

/-- Witness for C6 at a concrete environment where the index matches one
node. -/
theorem retrieve_returns_index_query_order_witness :
    sampleWorld.evalString sampleCmd.selector = Except.ok (EvalValue.selectorVal sampleSelector) ∧
    (EvalValue.selectorVal sampleSelector).castLocatableSelector =
      Except.ok (⟨sampleSelector⟩ : LocatableSelector) ∧
    sampleDoc.introspector.queryFn (⟨sampleSelector⟩ : LocatableSelector).sel ≠ [] ∧
    (retrieve sampleWorld sampleCmd sampleDoc =
      Except.ok (sampleDoc.introspector.queryFn (⟨sampleSelector⟩ : LocatableSelector).sel) ∧
     ∀ l₁ l₂, retrieve sampleWorld sampleCmd sampleDoc = Except.ok l₁ →
       retrieve sampleWorld sampleCmd sampleDoc = Except.ok l₂ → l₁ = l₂) :=
  ⟨rfl, rfl, by decide,
   retrieve_returns_index_query_order sampleWorld sampleCmd sampleDoc
     (EvalValue.selectorVal sampleSelector) ⟨sampleSelector⟩ rfl rfl (by decide)⟩

/-- C10: when the compile's tracer recorded no values, or the first
recorded value carries no styles, `query` panics at the styles extraction
(the double `unwrap` that runs before the compile result is inspected):
the whole run is exactly the effect-free panic, so the process-failed flag
stays unset and the diagnostics/abort branch is unreachable even when the
compile itself failed. -/
theorem query_panics_on_missing_styles (world : SystemWorld) (cmd : QueryCommand)
    (hsrc : world.sourceResult = Except.ok ())
    (h : world.compileTracerValues.head? = none ∨
         ∃ n, world.compileTracerValues.head? = some (n, none)) :
    query (Except.ok world) cmd = RunResult.pure (Outcome.panicked unwrapNoneMsg) := by
  rcases h with h | ⟨n, h⟩ <;> simp [query, hsrc, h]

/-- Witness for C10 at a concrete environment whose compile failed and
whose tracer recorded nothing. -/
theorem query_panics_on_missing_styles_witness :
    worldNoTracer.sourceResult = Except.ok () ∧
    (worldNoTracer.compileTracerValues.head? = none ∨
     ∃ n, worldNoTracer.compileTracerValues.head? = some (n, none)) ∧
    query (Except.ok worldNoTracer) sampleCmd = RunResult.pure (Outcome.panicked unwrapNoneMsg) :=
  ⟨rfl, Or.inl rfl,
   query_panics_on_missing_styles worldNoTracer sampleCmd rfl (Or.inl rfl)⟩

/-- C1 counterexample: at a concrete environment whose selector evaluates
successfully and matches zero nodes, `query` does not abort with a typed
count-mismatch error: it panics (the `unwrap` on `data.first()`), although
indeed no layout is attempted. -/
theorem query_zero_matches_counterexample :
    retrieve worldZeroMatches sampleCmd emptyMatchDoc = Except.ok [] ∧
    (query (Except.ok worldZeroMatches) sampleCmd).outcome = Outcome.panicked unwrapNoneMsg ∧
    (query (Except.ok worldZeroMatches) sampleCmd).layoutCalls = [] := by
  exact ⟨rfl, rfl, rfl⟩

/-- C1 amended: when the selector evaluates successfully but matches zero
content nodes, `query` panics at `data.first().unwrap()` (rather than
aborting with a count-mismatch error: the `format` call that would report
the result count is commented out), and no layout, render or file write is
attempted. -/
theorem query_zero_matches_panics (world : SystemWorld) (cmd : QueryCommand)
    (document : Document) (n : Nat) (styles : Styles)
    (hsrc : world.sourceResult = Except.ok ())
    (hstyles : world.compileTracerValues.head? = some (n, some styles))
    (hcompile : world.compileResult = Except.ok document)
    (hret : retrieve world cmd document = Except.ok []) :
    (query (Except.ok world) cmd).outcome = Outcome.panicked unwrapNoneMsg ∧
    (query (Except.ok world) cmd).layoutCalls = [] ∧
    (query (Except.ok world) cmd).renders = [] ∧
    (query (Except.ok world) cmd).filesWritten = [] := by
  rcases hrc : retrieveCore world cmd document with ⟨res, evals, queries⟩
  have hres : res = Except.ok [] := by
    unfold retrieve at hret
    rw [hrc] at hret
    exact hret
  subst hres
  simp [query, RunResult.pure, hsrc, hstyles, hcompile, hrc]

/-- Witness for the amended C1 at a concrete zero-match environment. -/
theorem query_zero_matches_panics_witness :
    worldZeroMatches.sourceResult = Except.ok () ∧
    worldZeroMatches.compileTracerValues.head? = some (0, some sampleStyles) ∧
    worldZeroMatches.compileResult = Except.ok emptyMatchDoc ∧
    retrieve worldZeroMatches sampleCmd emptyMatchDoc = Except.ok [] ∧
    ((query (Except.ok worldZeroMatches) sampleCmd).outcome = Outcome.panicked unwrapNoneMsg ∧
     (query (Except.ok worldZeroMatches) sampleCmd).layoutCalls = [] ∧
     (query (Except.ok worldZeroMatches) sampleCmd).renders = [] ∧
     (query (Except.ok worldZeroMatches) sampleCmd).filesWritten = []) :=
  ⟨rfl, rfl, rfl, rfl,
   query_zero_matches_panics worldZeroMatches sampleCmd emptyMatchDoc 0 sampleStyles
     rfl rfl rfl rfl⟩

/-- C2 counterexample: at a concrete environment where the isolated
re-layout succeeds with zero pages, `query` crashes (panics at
`pages.first().unwrap()`) instead of failing with a typed
`RenderEmptyOutput`-style error; no render and no write happen. -/
theorem query_empty_pages_counterexample :
    worldEmptyPages.layoutRoot sampleEngine sampleContent (StyleChain.new sampleStyles) =
      Except.ok emptyPagesDoc ∧
    emptyPagesDoc.pages = [] ∧
    (query (Except.ok worldEmptyPages) sampleCmd).layoutCalls =
      [(sampleEngine, sampleContent, StyleChain.new sampleStyles)] ∧
    (query (Except.ok worldEmptyPages) sampleCmd).outcome = Outcome.panicked unwrapNoneMsg ∧
    (query (Except.ok worldEmptyPages) sampleCmd).renders = [] ∧
    (query (Except.ok worldEmptyPages) sampleCmd).writeAttempts = [] := by
  exact ⟨rfl, rfl, rfl, rfl, rfl, rfl⟩

/-- C2 amended: when the isolated re-layout succeeds but produces a
document with zero pages, `query` panics at `pages.first().unwrap()`
(rather than failing with a typed no-renderable-output error); no render
is attempted and no file is written. -/
theorem query_empty_pages_panics (world : SystemWorld) (cmd : QueryCommand)
    (document : Document) (n : Nat) (styles : Styles) (data : List Content)
    (firstMatch : Content) (newDoc : Document)
    (hsrc : world.sourceResult = Except.ok ())
    (hstyles : world.compileTracerValues.head? = some (n, some styles))
    (hcompile : world.compileResult = Except.ok document)
    (hret : retrieve world cmd document = Except.ok data)
    (hfm : data.head? = some firstMatch)
    (hlay : world.layoutRoot
        { world := world.track, route := Route.default, tracer := Tracer.new,
          locator := Locator.new,
          introspector := document.introspector.track_with Constraint.new }
        firstMatch (StyleChain.new styles) = Except.ok newDoc)
    (hpages : newDoc.pages = []) :
    (query (Except.ok world) cmd).outcome = Outcome.panicked unwrapNoneMsg ∧
    (query (Except.ok world) cmd).renders = [] ∧
    (query (Except.ok world) cmd).writeAttempts = [] ∧
    (query (Except.ok world) cmd).filesWritten = [] := by
  rcases hrc : retrieveCore world cmd document with ⟨res, evals, queries⟩
  have hres : res = Except.ok data := by
    unfold retrieve at hret
    rw [hrc] at hret
    exact hret
  subst hres
  simp [query, RunResult.pure, hsrc, hstyles, hcompile, hrc, hfm, hlay, hpages]

/-- Witness for the amended C2 at a concrete zero-page re-layout. -/
theorem query_empty_pages_panics_witness :
    worldEmptyPages.layoutRoot
      { world := worldEmptyPages.track, route := Route.default, tracer := Tracer.new,
        locator := Locator.new,
        introspector := sampleDoc.introspector.track_with Constraint.new }
      sampleContent (StyleChain.new sampleStyles) = Except.ok emptyPagesDoc ∧
    emptyPagesDoc.pages = [] ∧
    ((query (Except.ok worldEmptyPages) sampleCmd).outcome = Outcome.panicked unwrapNoneMsg ∧
     (query (Except.ok worldEmptyPages) sampleCmd).renders = [] ∧
     (query (Except.ok worldEmptyPages) sampleCmd).writeAttempts = [] ∧
     (query (Except.ok worldEmptyPages) sampleCmd).filesWritten = []) :=
  ⟨rfl, rfl,
   query_empty_pages_panics worldEmptyPages sampleCmd sampleDoc 0 sampleStyles
     [sampleContent] sampleContent emptyPagesDoc rfl rfl rfl rfl rfl rfl rfl⟩

/-- C8 counterexample: at a concrete environment whose compile fails while
the tracer recorded no styled value, `query` does not transition to the
abort branch: it panics at the styles extraction and the process-failed
flag stays unset. -/
theorem query_compile_failure_counterexample :
    worldNoTracer.compileResult = Except.error [⟨"compile failed"⟩] ∧
    (query (Except.ok worldNoTracer) sampleCmd).failedSet = false ∧
    (query (Except.ok worldNoTracer) sampleCmd).outcome = Outcome.panicked unwrapNoneMsg := by
  exact ⟨rfl, rfl, rfl⟩

/-- C8 amended: when the full compile fails and the styles extraction
succeeds (the tracer recorded a first value with styles present), `query`
returns `Ok(())` with the process-failed flag set and attempts no selector
evaluation, no index query, no layout, no render and no write; the
compile's diagnostics are discarded, not surfaced (the printing call is
commented out). -/
theorem query_compile_failure_sets_failed (world : SystemWorld) (cmd : QueryCommand)
    (errs : List SourceError) (n : Nat) (styles : Styles)
    (hsrc : world.sourceResult = Except.ok ())
    (hstyles : world.compileTracerValues.head? = some (n, some styles))
    (hcompile : world.compileResult = Except.error errs) :
    query (Except.ok world) cmd =
      { RunResult.pure Outcome.success with failedSet := true } := by
  simp [query, hsrc, hstyles, hcompile]

/-- Witness for the amended C8 at a concrete failing compile with a styled
value recorded. -/
theorem query_compile_failure_sets_failed_witness :
    worldCompileFails.sourceResult = Except.ok () ∧
    worldCompileFails.compileTracerValues.head? = some (0, some sampleStyles) ∧
    worldCompileFails.compileResult = Except.error [⟨"compile failed"⟩] ∧
    query (Except.ok worldCompileFails) sampleCmd =
      { RunResult.pure Outcome.success with failedSet := true } :=
  ⟨rfl, rfl, rfl,
   query_compile_failure_sets_failed worldCompileFails sampleCmd
     [⟨"compile failed"⟩] 0 sampleStyles rfl rfl rfl⟩

/-- C3 counterexample: at a concrete environment where the matched node's
isolated layout fails, `query` panics (the `unwrap` on the `layout_root`
result) instead of returning the failure as a typed result value. -/
theorem query_layout_failure_panics_counterexample :
    worldLayoutFails.layoutRoot sampleEngine sampleContent (StyleChain.new sampleStyles) =
      Except.error [⟨"cannot lay out in isolation"⟩] ∧
    (query (Except.ok worldLayoutFails) sampleCmd).layoutCalls =
      [(sampleEngine, sampleContent, StyleChain.new sampleStyles)] ∧
    (query (Except.ok worldLayoutFails) sampleCmd).outcome = Outcome.panicked unwrapErrMsg := by
  exact ⟨rfl, rfl, rfl⟩

/-- C3 amended: selector evaluation and cast failures are returned to the
orchestrator as typed result values (the `retrieve` error is propagated by
`?`), but a layout failure of the matched node and an output-file write
failure are not: both panic (`unwrap` on the `layout_root` and `fs::write`
results). -/
theorem query_error_propagation (world : SystemWorld) (cmd : QueryCommand)
    (document : Document) (n : Nat) (styles : Styles)
    (hsrc : world.sourceResult = Except.ok ())
    (hstyles : world.compileTracerValues.head? = some (n, some styles))
    (hcompile : world.compileResult = Except.ok document) :
    (∀ m, retrieve world cmd document = Except.error m →
      (query (Except.ok world) cmd).outcome = Outcome.typedError m) ∧
    (∀ data firstMatch errs,
      retrieve world cmd document = Except.ok data →
      data.head? = some firstMatch →
      world.layoutRoot
        { world := world.track, route := Route.default, tracer := Tracer.new,
          locator := Locator.new,
          introspector := document.introspector.track_with Constraint.new }
        firstMatch (StyleChain.new styles) = Except.error errs →
      (query (Except.ok world) cmd).outcome = Outcome.panicked unwrapErrMsg) ∧
    (∀ data firstMatch newDoc page e,
      retrieve world cmd document = Except.ok data →
      data.head? = some firstMatch →
      world.layoutRoot
        { world := world.track, route := Route.default, tracer := Tracer.new,
          locator := Locator.new,
          introspector := document.introspector.track_with Constraint.new }
        firstMatch (StyleChain.new styles) = Except.ok newDoc →
      newDoc.pages.head? = some page →
      world.fsWrite "./output.svg" (world.svg page.frame) = Except.error e →
      (query (Except.ok world) cmd).outcome = Outcome.panicked e) := by
  refine ⟨?_, ?_, ?_⟩
  · intro m hret
    rcases hrc : retrieveCore world cmd document with ⟨res, evals, queries⟩
    have hres : res = Except.error m := by
      unfold retrieve at hret
      rw [hrc] at hret
      exact hret
    subst hres
    simp [query, RunResult.pure, hsrc, hstyles, hcompile, hrc]
  · intro data firstMatch errs hret hfm hlay
    rcases hrc : retrieveCore world cmd document with ⟨res, evals, queries⟩
    have hres : res = Except.ok data := by
      unfold retrieve at hret
      rw [hrc] at hret
      exact hret
    subst hres
    simp [query, RunResult.pure, hsrc, hstyles, hcompile, hrc, hfm, hlay]
  · intro data firstMatch newDoc page e hret hfm hlay hp hw
    rcases hrc : retrieveCore world cmd document with ⟨res, evals, queries⟩
    have hres : res = Except.ok data := by
      unfold retrieve at hret
      rw [hrc] at hret
      exact hret
    subst hres
    simp [query, RunResult.pure, hsrc, hstyles, hcompile, hrc, hfm, hlay, hp, hw]

/-- Witness for the amended C3: a cast failure surfaces as a typed error,
while a layout failure and a write failure panic, each at a concrete
environment. -/
theorem query_error_propagation_witness :
    retrieve worldCastFails sampleCmd sampleDoc =
      Except.error "expected selector, found integer" ∧
    (query (Except.ok worldCastFails) sampleCmd).outcome =
      Outcome.typedError "expected selector, found integer" ∧
    (query (Except.ok worldLayoutFails) sampleCmd).outcome = Outcome.panicked unwrapErrMsg ∧
    (query (Except.ok worldWriteFails) sampleCmd).outcome =
      Outcome.panicked "permission denied" :=
  ⟨rfl,
   (query_error_propagation worldCastFails sampleCmd sampleDoc 0 sampleStyles
     rfl rfl rfl).1 "expected selector, found integer" rfl,
   (query_error_propagation worldLayoutFails sampleCmd sampleDoc 0 sampleStyles
     rfl rfl rfl).2.1 [sampleContent] sampleContent [⟨"cannot lay out in isolation"⟩]
     rfl rfl rfl,
   (query_error_propagation worldWriteFails sampleCmd sampleDoc 0 sampleStyles
     rfl rfl rfl).2.2 [sampleContent] sampleContent sampleNewDoc samplePage
     "permission denied" rfl rfl rfl rfl rfl⟩

/-- C9: whenever `query` invokes the isolated re-layout, the engine it
passes to `layout_root` consists of exactly the tracked world handle, the
default (empty-route) recursion guard, a fresh tracer, a fresh location
allocator, and the compiled document's index wrapped with a freshly
created empty constraint; and the style chain is built from the styles
captured from the original compile (the first styled value recorded by the
compile's tracer), with the node being the first retrieved match. -/
theorem query_layout_context_exact (wi : Except String SystemWorld) (cmd : QueryCommand)
    (e : Engine) (c : Content) (s : StyleChain)
    (h : (e, c, s) ∈ (query wi cmd).layoutCalls) :
    ∃ world document n styles data,
      wi = Except.ok world ∧
      world.compileResult = Except.ok document ∧
      world.compileTracerValues.head? = some (n, some styles) ∧
      retrieve world cmd document = Except.ok data ∧
      data.head? = some c ∧
      e = { world := world.track, route := Route.default, tracer := Tracer.new,
            locator := Locator.new,
            introspector := document.introspector.track_with Constraint.new } ∧
      s = StyleChain.new styles := by
  rcases wi with msg | world
  · simp [query, RunResult.pure] at h
  · cases hsrc : world.sourceResult with
    | error err => simp [query, RunResult.pure, hsrc] at h
    | ok u =>
      cases hh : world.compileTracerValues.head? with
      | none => simp [query, RunResult.pure, hsrc, hh] at h
      | some p =>
        rcases p with ⟨n, os⟩
        cases os with
        | none => simp [query, RunResult.pure, hsrc, hh] at h
        | some styles =>
          cases hc : world.compileResult with
          | error errs => simp [query, RunResult.pure, hsrc, hh, hc] at h
          | ok document =>
            rcases hrc : retrieveCore world cmd document with ⟨res, evals, queries⟩
            have hret : retrieve world cmd document = (res, evals, queries).1 := by
              unfold retrieve
              rw [hrc]
            cases res with
            | error m => simp [query, RunResult.pure, hsrc, hh, hc, hrc] at h
            | ok data =>
              cases hd : data.head? with
              | none => simp [query, RunResult.pure, hsrc, hh, hc, hrc, hd] at h
              | some firstMatch =>
                cases hlay : world.layoutRoot
                    { world := world.track, route := Route.default, tracer := Tracer.new,
                      locator := Locator.new,
                      introspector := document.introspector.track_with Constraint.new }
                    firstMatch (StyleChain.new styles) with
                | error errs =>
                  simp [query, RunResult.pure, hsrc, hh, hc, hrc, hd, hlay] at h
                  obtain ⟨he, hcc, hs⟩ := h
                  subst he; subst hcc; subst hs
                  exact ⟨world, document, n, styles, data, rfl, hc, hh, hret, hd, rfl, rfl⟩
                | ok newDoc =>
                  cases hp : newDoc.pages.head? with
                  | none =>
                    simp [query, RunResult.pure, hsrc, hh, hc, hrc, hd, hlay, hp] at h
                    obtain ⟨he, hcc, hs⟩ := h
                    subst he; subst hcc; subst hs
                    exact ⟨world, document, n, styles, data, rfl, hc, hh, hret, hd, rfl, rfl⟩
                  | some page =>
                    cases hw : world.fsWrite "./output.svg" (world.svg page.frame) with
                    | error werr =>
                      simp [query, RunResult.pure, hsrc, hh, hc, hrc, hd, hlay, hp, hw] at h
                      obtain ⟨he, hcc, hs⟩ := h
                      subst he; subst hcc; subst hs
                      exact ⟨world, document, n, styles, data, rfl, hc, hh, hret, hd, rfl, rfl⟩
                    | ok wu =>
                      simp [query, RunResult.pure, hsrc, hh, hc, hrc, hd, hlay, hp, hw] at h
                      obtain ⟨he, hcc, hs⟩ := h
                      subst he; subst hcc; subst hs
                      exact ⟨world, document, n, styles, data, rfl, hc, hh, hret, hd, rfl, rfl⟩

/-- Witness for C9 at the fully successful concrete environment. -/
theorem query_layout_context_exact_witness :
    ((sampleEngine, sampleContent, StyleChain.new sampleStyles) ∈
      (query (Except.ok sampleWorld) sampleCmd).layoutCalls) ∧
    (∃ world document n styles data,
      (Except.ok sampleWorld : Except String SystemWorld) = Except.ok world ∧
      world.compileResult = Except.ok document ∧
      world.compileTracerValues.head? = some (n, some styles) ∧
      retrieve world sampleCmd document = Except.ok data ∧
      data.head? = some sampleContent ∧
      sampleEngine = { world := world.track, route := Route.default, tracer := Tracer.new,
                       locator := Locator.new,
                       introspector := document.introspector.track_with Constraint.new } ∧
      StyleChain.new sampleStyles = StyleChain.new styles) := by
  have hmem : (sampleEngine, sampleContent, StyleChain.new sampleStyles) ∈
      (query (Except.ok sampleWorld) sampleCmd).layoutCalls := List.Mem.head _
  exact ⟨hmem, query_layout_context_exact (Except.ok sampleWorld) sampleCmd
    sampleEngine sampleContent (StyleChain.new sampleStyles) hmem⟩

/-- C5: `query` reaches the filesystem write only after the world
initialisation, the source read, the styles extraction, the full compile,
the retrieval (with at least one match), the isolated layout and the SVG
render have all succeeded; hence on every fatal error — compile failure,
selector evaluation failure, cast failure, or any abort before rendering —
no output file is written (not even attempted). -/
theorem query_writes_only_after_full_success (wi : Except String SystemWorld)
    (cmd : QueryCommand)
    (h : (query wi cmd).writeAttempts ≠ [] ∨ (query wi cmd).filesWritten ≠ []) :
    ∃ world document n styles data firstMatch newDoc page,
      wi = Except.ok world ∧
      world.sourceResult = Except.ok () ∧
      world.compileTracerValues.head? = some (n, some styles) ∧
      world.compileResult = Except.ok document ∧
      retrieve world cmd document = Except.ok data ∧
      data.head? = some firstMatch ∧
      world.layoutRoot
        { world := world.track, route := Route.default, tracer := Tracer.new,
          locator := Locator.new,
          introspector := document.introspector.track_with Constraint.new }
        firstMatch (StyleChain.new styles) = Except.ok newDoc ∧
      newDoc.pages.head? = some page ∧
      (query wi cmd).renders = [page.frame] := by
  rcases wi with msg | world
  · simp [query, RunResult.pure] at h
  · cases hsrc : world.sourceResult with
    | error err => simp [query, RunResult.pure, hsrc] at h
    | ok u =>
      cases u
      cases hh : world.compileTracerValues.head? with
      | none => simp [query, RunResult.pure, hsrc, hh] at h
      | some p =>
        rcases p with ⟨n, os⟩
        cases os with
        | none => simp [query, RunResult.pure, hsrc, hh] at h
        | some styles =>
          cases hc : world.compileResult with
          | error errs => simp [query, RunResult.pure, hsrc, hh, hc] at h
          | ok document =>
            rcases hrc : retrieveCore world cmd document with ⟨res, evals, queries⟩
            have hret : retrieve world cmd document = (res, evals, queries).1 := by
              unfold retrieve
              rw [hrc]
            cases res with
            | error m => simp [query, RunResult.pure, hsrc, hh, hc, hrc] at h
            | ok data =>
              cases hd : data.head? with
              | none => simp [query, RunResult.pure, hsrc, hh, hc, hrc, hd] at h
              | some firstMatch =>
                cases hlay : world.layoutRoot
                    { world := world.track, route := Route.default, tracer := Tracer.new,
                      locator := Locator.new,
                      introspector := document.introspector.track_with Constraint.new }
                    firstMatch (StyleChain.new styles) with
                | error errs =>
                  simp [query, RunResult.pure, hsrc, hh, hc, hrc, hd, hlay] at h
                | ok newDoc =>
                  cases hp : newDoc.pages.head? with
                  | none =>
                    simp [query, RunResult.pure, hsrc, hh, hc, hrc, hd, hlay, hp] at h
                  | some page =>
                    cases hw : world.fsWrite "./output.svg" (world.svg page.frame) with
                    | error werr =>
                      refine ⟨world, document, n, styles, data, firstMatch, newDoc, page,
                        rfl, hsrc, hh, hc, hret, hd, hlay, hp, ?_⟩
                      simp [query, RunResult.pure, hsrc, hh, hc, hrc, hd, hlay, hp, hw]
                    | ok wu =>
                      refine ⟨world, document, n, styles, data, firstMatch, newDoc, page,
                        rfl, hsrc, hh, hc, hret, hd, hlay, hp, ?_⟩
                      simp [query, RunResult.pure, hsrc, hh, hc, hrc, hd, hlay, hp, hw]

/-- Witness for C5 at the fully successful concrete environment, where the
write is attempted and performed. -/
theorem query_writes_only_after_full_success_witness :
    ((query (Except.ok sampleWorld) sampleCmd).writeAttempts ≠ [] ∨
     (query (Except.ok sampleWorld) sampleCmd).filesWritten ≠ []) ∧
    (∃ world document n styles data firstMatch newDoc page,
      (Except.ok sampleWorld : Except String SystemWorld) = Except.ok world ∧
      world.sourceResult = Except.ok () ∧
      world.compileTracerValues.head? = some (n, some styles) ∧
      world.compileResult = Except.ok document ∧
      retrieve world sampleCmd document = Except.ok data ∧
      data.head? = some firstMatch ∧
      world.layoutRoot
        { world := world.track, route := Route.default, tracer := Tracer.new,
          locator := Locator.new,
          introspector := document.introspector.track_with Constraint.new }
        firstMatch (StyleChain.new styles) = Except.ok newDoc ∧
      newDoc.pages.head? = some page ∧
      (query (Except.ok sampleWorld) sampleCmd).renders = [page.frame]) := by
  have hw : (query (Except.ok sampleWorld) sampleCmd).writeAttempts ≠ [] ∨
      (query (Except.ok sampleWorld) sampleCmd).filesWritten ≠ [] := by
    have hq : (query (Except.ok sampleWorld) sampleCmd).writeAttempts =
        [("./output.svg", "svg-data")] := rfl
    left
    rw [hq]
    simp
  exact ⟨hw, query_writes_only_after_full_success (Except.ok sampleWorld) sampleCmd hw⟩
